import Mathlib

/-!
Verification of the drone control core
(`src/ControlNotebook/Individual_Note_Books/Edwin/4MotorBluetoothANDServo.c`,
`src/Resources/XboxBluetooth/TestCode.c`).

The embedding follows the C source: machine `int` arithmetic is modelled by
`Int`, with C's truncating division (`/` on `int`, rounding toward zero)
modelled by `Int.tdiv`; the Arduino `map` and `constrain` helpers are
transcribed literally; the controller-slot array is a list of optional
device identities scanned in ascending index order, exactly as the two
callback handlers do.
-/

namespace Drone

/-- `const int MIN_PULSE = 1020;` — full reverse. -/
def MIN_PULSE : Int := 1020

/-- `const int MID_PULSE = 1492;` — neutral. -/
def MID_PULSE : Int := 1492

/-- `const int MAX_PULSE = 2000;` — full forward. -/
def MAX_PULSE : Int := 2000

/-- `const int SERVO_UP = 170;` -/
def SERVO_UP : Int := 170

/-- `const int SERVO_DOWN = 10;` -/
def SERVO_DOWN : Int := 10

/-- Arduino `map(x, in_min, in_max, out_min, out_max)` =
`(x - in_min) * (out_max - out_min) / (in_max - in_min) + out_min`,
where `/` is C integer division (truncation toward zero), i.e. `Int.tdiv`. -/
def arduinoMap (x inMin inMax outMin outMax : Int) : Int :=
  Int.tdiv ((x - inMin) * (outMax - outMin)) (inMax - inMin) + outMin

/-- Arduino `constrain(amt, low, high)` =
`amt < low ? low : (amt > high ? high : amt)`. -/
def constrain (amt low high : Int) : Int :=
  if amt < low then low else if amt > high then high else amt

/-- `mapJoystickToPulseBidirectional` from the source:
`if (abs(joyVal) < 40) return MID_PULSE;`
`int pulse = map(joyVal, -512, 512, MIN_PULSE, MAX_PULSE);`
`return constrain(pulse, MIN_PULSE, MAX_PULSE);` -/
def mapJoystickToPulseBidirectional (joyVal : Int) : Int :=
  if joyVal.natAbs < 40 then MID_PULSE
  else constrain (arduinoMap joyVal (-512) 512 MIN_PULSE MAX_PULSE) MIN_PULSE MAX_PULSE

/-- The dispatch loop (`updateMotorsFromController`, lines 84–88) negates the
raw axis reading before handing it to the mapper:
`int leftPulse = mapJoystickToPulseBidirectional(-leftY);`. -/
def pulseFromAxisReading (axisY : Int) : Int :=
  mapJoystickToPulseBidirectional (-axisY)

/-- Truncating division by a positive integer is monotone in the numerator. -/
theorem tdiv_le_tdiv_of_le {a b c : Int} (hc : 0 < c) (h : a ≤ b) :
    a.tdiv c ≤ b.tdiv c := by
  rcases le_or_lt 0 a with ha | ha
  · have hb : 0 ≤ b := le_trans ha h
    rw [Int.tdiv_eq_ediv ha (le_of_lt hc), Int.tdiv_eq_ediv hb (le_of_lt hc)]
    exact Int.ediv_le_ediv hc h
  · rcases le_or_lt 0 b with hb | hb
    · have h1 : a.tdiv c ≤ 0 := by
        have : (0 : Int) ≤ (-a).tdiv c :=
          Int.tdiv_nonneg (by omega) (le_of_lt hc)
        rw [Int.neg_tdiv] at this
        omega
      have h2 : (0 : Int) ≤ b.tdiv c := Int.tdiv_nonneg hb (le_of_lt hc)
      omega
    · have ha' : (0 : Int) ≤ -b := by omega
      have h' : -b ≤ -a := by omega
      have hb' : (0 : Int) ≤ -a := by omega
      have : (-b).tdiv c ≤ (-a).tdiv c := by
        rw [Int.tdiv_eq_ediv ha' (le_of_lt hc), Int.tdiv_eq_ediv hb' (le_of_lt hc)]
        exact Int.ediv_le_ediv hc h'
      rw [Int.neg_tdiv, Int.neg_tdiv] at this
      omega

/-- The interpolation step of the mapper is monotone in the axis value. -/
theorem arduinoMap_mono {v1 v2 : Int} (h : v1 ≤ v2) :
    arduinoMap v1 (-512) 512 MIN_PULSE MAX_PULSE ≤
      arduinoMap v2 (-512) 512 MIN_PULSE MAX_PULSE := by
  unfold arduinoMap MIN_PULSE MAX_PULSE
  have : ((v1 - -512) * (2000 - 1020)).tdiv (512 - -512) ≤
      ((v2 - -512) * (2000 - 1020)).tdiv (512 - -512) := by
    apply tdiv_le_tdiv_of_le (by norm_num)
    nlinarith
  omega

/-- `constrain` is monotone in its first argument when the interval is sane. -/
theorem constrain_mono {x y low high : Int} (hlh : low ≤ high) (h : x ≤ y) :
    constrain x low high ≤ constrain y low high := by
  unfold constrain
  split <;> split <;> omega

/-- `constrain` lands in `[low, high]` whenever `low ≤ high`. -/
theorem constrain_mem {x low high : Int} (h : low ≤ high) :
    low ≤ constrain x low high ∧ constrain x low high ≤ high := by
  unfold constrain
  split <;> [omega; split <;> omega]

/-- A controller slot: `ControllerPtr` entries are either `nullptr` (here
`none`) or a device identity (here a `Nat` standing for the pointer). The
registry is the array `controllers[BP32_MAX_GAMEPADS]`, scanned in
ascending index order; modelling it as a list keeps the scan order. -/
abbrev Registry := List (Option Nat)

/-- `BP32_MAX_GAMEPADS` controller slots, all `nullptr` at startup. The
constant itself comes from the Bluepad32 collaborator header (value 4);
the spec only fixes it as "a fixed small number of simultaneous
controllers". -/
def initialControllers : Registry := List.replicate 4 none

/-- `onConnectedController(ctl)`: scan slots in ascending order and put the
device in the first empty slot; if none is empty, do nothing (the device is
silently dropped, no error is surfaced). -/
def onConnectedController (d : Nat) : Registry → Registry
  | [] => []
  | none :: rest => some d :: rest
  | some x :: rest => some x :: onConnectedController d rest

/-- `onDisconnectedController(ctl)`: scan slots in ascending order and
clear the first slot whose occupant equals the device; if the device is
not found, do nothing. -/
def onDisconnectedController (d : Nat) : Registry → Registry
  | [] => []
  | none :: rest => none :: onDisconnectedController d rest
  | some x :: rest =>
      if x = d then none :: rest
      else some x :: onDisconnectedController d rest

/-- The devices occupying live slots, in slot order. -/
def occupants (s : Registry) : List Nat := s.filterMap id

/-- Number of occupied slots. -/
def countOccupied (s : Registry) : Nat := (occupants s).length

/-- Index of the first empty slot, if any. -/
def firstEmptyIdx : Registry → Option Nat
  | [] => none
  | none :: _ => some 0
  | some _ :: rest => (firstEmptyIdx rest).map (· + 1)

/-- Fold a list of connect events over a registry. -/
def connectAll (ds : List Nat) (s : Registry) : Registry :=
  ds.foldl (fun t d => onConnectedController d t) s

/-- A connect or disconnect event delivered by the input collaborator. -/
inductive RegEvent where
  | connect (d : Nat)
  | disconnect (d : Nat)
deriving DecidableEq

/-- Apply one callback event to the registry. -/
def applyEvent (s : Registry) : RegEvent → Registry
  | RegEvent.connect d => onConnectedController d s
  | RegEvent.disconnect d => onDisconnectedController d s

/-- Apply a sequence of callback events, oldest first. -/
def applyEvents (evs : List RegEvent) (s : Registry) : Registry :=
  evs.foldl applyEvent s

/-- A sequence is well-formed from `s` when every connect event carries a
device that is not registered at the moment the event is applied (the
collaborator never announces a connect for an already-connected device). -/
def goodSeq : Registry → List RegEvent → Bool
  | _, [] => true
  | s, RegEvent.connect d :: rest =>
      decide (d ∉ occupants s) && goodSeq (onConnectedController d s) rest
  | s, RegEvent.disconnect d :: rest =>
      goodSeq (onDisconnectedController d s) rest

/-- No device occupies two distinct live slots. -/
def NoDupOccupants (s : Registry) : Prop := (occupants s).Nodup

/-- The servo part of `updateMotorsFromController` (lines 96–106): read the
button mask; if `BUTTON_Y` is down write `SERVO_UP`, then if `BUTTON_A` is
down write `SERVO_DOWN`. The checks run in that textual order, so when both
are asserted the second write lands last. `BUTTON_A = 1` and `BUTTON_Y = 8`
are the Bluepad32 collaborator's mask bits. -/
def BUTTON_A : Nat := 1

/-- Bluepad32 mask bit for the Y button. -/
def BUTTON_Y : Nat := 8

/-- Servo position after one `updateMotorsFromController` call, given the
connectivity flag, the button mask and the servo position entering the
tick. A disconnected controller is skipped (`if (!ctl->isConnected()) return;`). -/
def servoAfterUpdate (connected : Bool) (buttons : Nat) (servo : Int) : Int :=
  if !connected then servo
  else
    let afterY := if buttons &&& BUTTON_Y ≠ 0 then SERVO_UP else servo
    if buttons &&& BUTTON_A ≠ 0 then SERVO_DOWN else afterY

/-- Outside the deadzone the mapper is the clamped interpolation. -/
theorem map_outside_deadzone {v : Int} (h : 40 ≤ v.natAbs) :
    mapJoystickToPulseBidirectional v =
      constrain (arduinoMap v (-512) 512 MIN_PULSE MAX_PULSE) MIN_PULSE MAX_PULSE := by
  unfold mapJoystickToPulseBidirectional
  rw [if_neg (by omega)]

/-- The mapper's output always lies in `[MIN_PULSE, MAX_PULSE]`. -/
theorem map_mem_range (v : Int) :
    MIN_PULSE ≤ mapJoystickToPulseBidirectional v ∧
      mapJoystickToPulseBidirectional v ≤ MAX_PULSE := by
  unfold mapJoystickToPulseBidirectional
  split
  · unfold MIN_PULSE MID_PULSE MAX_PULSE
    omega
  · exact constrain_mem (by unfold MIN_PULSE MAX_PULSE; omega)

/-- The mapper is monotone on the positive side of the deadzone. -/
theorem map_mono_pos {v1 v2 : Int} (h1 : 40 ≤ v1) (h : v1 ≤ v2) :
    mapJoystickToPulseBidirectional v1 ≤ mapJoystickToPulseBidirectional v2 := by
  rw [map_outside_deadzone (by omega), map_outside_deadzone (by omega)]
  exact constrain_mono (by unfold MIN_PULSE MAX_PULSE; omega) (arduinoMap_mono h)

/-- The mapper is monotone on the negative side of the deadzone. -/
theorem map_mono_neg {v1 v2 : Int} (h : v1 ≤ v2) (h2 : v2 ≤ -40) :
    mapJoystickToPulseBidirectional v1 ≤ mapJoystickToPulseBidirectional v2 := by
  rw [map_outside_deadzone (by omega), map_outside_deadzone (by omega)]
  exact constrain_mono (by unfold MIN_PULSE MAX_PULSE; omega) (arduinoMap_mono h)

theorem occupants_nil : occupants [] = [] := rfl

theorem occupants_cons_none (rest : Registry) :
    occupants (none :: rest) = occupants rest := rfl

theorem occupants_cons_some (x : Nat) (rest : Registry) :
    occupants (some x :: rest) = x :: occupants rest := rfl

theorem onConnected_nil (d : Nat) : onConnectedController d [] = [] := rfl

theorem onConnected_none (d : Nat) (rest : Registry) :
    onConnectedController d (none :: rest) = some d :: rest := rfl

theorem onConnected_some (d x : Nat) (rest : Registry) :
    onConnectedController d (some x :: rest) =
      some x :: onConnectedController d rest := rfl

theorem onDisconnected_nil (d : Nat) : onDisconnectedController d [] = [] := rfl

theorem onDisconnected_none (d : Nat) (rest : Registry) :
    onDisconnectedController d (none :: rest) =
      none :: onDisconnectedController d rest := rfl

theorem onDisconnected_some (d x : Nat) (rest : Registry) :
    onDisconnectedController d (some x :: rest) =
      if x = d then none :: rest
      else some x :: onDisconnectedController d rest := rfl

/-- A connect only ever adds the connected device to the occupants. -/
theorem mem_occupants_connect {y d : Nat} :
    ∀ {s : Registry}, y ∈ occupants (onConnectedController d s) →
      y = d ∨ y ∈ occupants s
  | [], h => Or.inr h
  | none :: rest, h => by
      rw [onConnected_none, occupants_cons_some] at h
      rw [occupants_cons_none]
      exact List.mem_cons.mp h
  | some x :: rest, h => by
      rw [onConnected_some, occupants_cons_some] at h
      rw [occupants_cons_some]
      rcases List.mem_cons.mp h with h | h
      · exact Or.inr (h ▸ List.mem_cons_self x (occupants rest))
      · rcases mem_occupants_connect h with h' | h'
        · exact Or.inl h'
        · exact Or.inr (List.mem_cons_of_mem _ h')

/-- Connecting a fresh device keeps the occupants duplicate-free. -/
theorem nodup_occupants_connect {d : Nat} :
    ∀ {s : Registry}, (occupants s).Nodup → d ∉ occupants s →
      (occupants (onConnectedController d s)).Nodup
  | [], _, _ => by rw [onConnected_nil]; exact List.nodup_nil
  | none :: rest, h, hd => by
      rw [occupants_cons_none] at h hd
      rw [onConnected_none, occupants_cons_some]
      exact List.nodup_cons.mpr ⟨hd, h⟩
  | some x :: rest, h, hd => by
      rw [occupants_cons_some] at h hd
      rw [onConnected_some, occupants_cons_some]
      rcases List.nodup_cons.mp h with ⟨hx, hrest⟩
      have hd' : d ∉ occupants rest := fun hmem =>
        hd (List.mem_cons_of_mem _ hmem)
      refine List.nodup_cons.mpr ⟨?_, nodup_occupants_connect hrest hd'⟩
      intro hmem
      rcases mem_occupants_connect hmem with h' | h'
      · exact hd (h' ▸ List.mem_cons_self x (occupants rest))
      · exact hx h'

/-- A disconnect only removes occupants. -/
theorem occupants_disconnect_sublist (d : Nat) :
    ∀ s : Registry,
      (occupants (onDisconnectedController d s)).Sublist (occupants s)
  | [] => List.Sublist.refl _
  | none :: rest => by
      rw [onDisconnected_none, occupants_cons_none, occupants_cons_none]
      exact occupants_disconnect_sublist d rest
  | some x :: rest => by
      rw [onDisconnected_some]
      split
      · rw [occupants_cons_none, occupants_cons_some]
        exact List.sublist_cons_self _ _
      · rw [occupants_cons_some, occupants_cons_some]
        exact List.Sublist.cons₂ _ (occupants_disconnect_sublist d rest)

/-- Disconnecting keeps the occupants duplicate-free. -/
theorem nodup_occupants_disconnect {d : Nat} {s : Registry}
    (h : (occupants s).Nodup) :
    (occupants (onDisconnectedController d s)).Nodup :=
  h.sublist (occupants_disconnect_sublist d s)

/-- Connecting into a registry whose head slot is occupied keeps the head. -/
theorem connectAll_cons_some (x : Nat) :
    ∀ (ds : List Nat) (t : Registry),
      connectAll ds (some x :: t) = some x :: connectAll ds t
  | [], t => rfl
  | d :: rest, t => by
      rw [connectAll, List.foldl_cons, onConnected_some]
      exact connectAll_cons_some x rest (onConnectedController d t)

/-- Connecting at most `K` devices into `K` empty slots fills a prefix. -/
theorem connectAll_replicate :
    ∀ (ds : List Nat) (K : Nat), ds.length ≤ K →
      connectAll ds (List.replicate K none) =
        ds.map some ++ List.replicate (K - ds.length) none
  | [], K, _ => by simp [connectAll]
  | d :: rest, K, h => by
      have hK : ∃ K', K = K' + 1 := by
        cases K
        · simp at h
        · exact ⟨_, rfl⟩
      rcases hK with ⟨K', rfl⟩
      rw [List.replicate_succ, connectAll, List.foldl_cons, onConnected_none]
      show connectAll rest (some d :: List.replicate K' none) = _
      rw [connectAll_cons_some, connectAll_replicate rest K' (by simpa using h)]
      simp

/-- Connecting into a full registry changes nothing. -/
theorem onConnectedController_map_some (d : Nat) :
    ∀ ds : List Nat, onConnectedController d (ds.map some) = ds.map some
  | [] => rfl
  | x :: rest => by
      rw [List.map_cons, onConnected_some, onConnectedController_map_some d rest]

/-- Disconnecting a device that was just connected and was not registered
before restores the registry exactly. -/
theorem disconnect_connect_roundtrip {d : Nat} :
    ∀ {s : Registry}, d ∉ occupants s →
      onDisconnectedController d (onConnectedController d s) = s
  | [], _ => rfl
  | none :: rest, _ => by
      rw [onConnected_none, onDisconnected_some, if_pos rfl]
  | some x :: rest, hd => by
      rw [occupants_cons_some] at hd
      have hx : x ≠ d := fun h =>
        hd (h ▸ List.mem_cons_self x (occupants rest))
      have hd' : d ∉ occupants rest := fun hmem =>
        hd (List.mem_cons_of_mem _ hmem)
      rw [onConnected_some, onDisconnected_some, if_neg hx,
        disconnect_connect_roundtrip hd']

/-- A connect places the device exactly at the first empty slot. -/
theorem connect_at_firstEmpty {x : Nat} :
    ∀ {s : Registry} {i : Nat}, firstEmptyIdx s = some i →
      (onConnectedController x s).get? i = some (some x)
  | [], i, h => by
      rw [show firstEmptyIdx [] = none from rfl] at h
      exact absurd h (by simp)
  | none :: rest, i, h => by
      have hi : i = 0 := by
        rw [show firstEmptyIdx (none :: rest) = some 0 from rfl] at h
        injection h with h'
        omega
      subst hi
      rw [onConnected_none]
      rfl
  | some y :: rest, i, h => by
      rw [show firstEmptyIdx (some y :: rest) =
            (firstEmptyIdx rest).map (· + 1) from rfl] at h
      rcases Option.map_eq_some'.mp h with ⟨j, hj, rfl⟩
      rw [onConnected_some]
      show (onConnectedController x rest).get? j = some (some x)
      exact connect_at_firstEmpty hj

/-- C1: for every integer axis value `v`, even outside the nominal domain
`[-512, 512]`, the mapper returns a pulse in `[MIN_PULSE, MAX_PULSE] =
[1020, 2000]`. -/
theorem mapper_always_in_pulse_range (v : Int) :
    MIN_PULSE ≤ mapJoystickToPulseBidirectional v ∧
      mapJoystickToPulseBidirectional v ≤ MAX_PULSE :=
  map_mem_range v

/-- C2: for every axis value of magnitude below the deadzone threshold 40,
the mapper returns exactly `MID_PULSE = 1492`. -/
theorem mapper_deadzone_gives_mid (v : Int) (h : v.natAbs < 40) :
    mapJoystickToPulseBidirectional v = MID_PULSE := by
  unfold mapJoystickToPulseBidirectional
  rw [if_pos h]

/-- Witness for C2 at the concrete axis value 3. -/
theorem mapper_deadzone_gives_mid_witness :
    (3 : Int).natAbs < 40 ∧ mapJoystickToPulseBidirectional 3 = MID_PULSE :=
  ⟨by decide, mapper_deadzone_gives_mid 3 (by decide)⟩

/-- C3 fails as stated: at axis value 512 (magnitude ≥ 40) the mapper
returns exactly `MAX_PULSE`, not a value strictly below it, and at
axis value -512 it returns exactly `MIN_PULSE`. -/
theorem mapper_attains_extremes :
    40 ≤ (512 : Int).natAbs ∧ mapJoystickToPulseBidirectional 512 = MAX_PULSE ∧
      40 ≤ (-512 : Int).natAbs ∧ mapJoystickToPulseBidirectional (-512) = MIN_PULSE := by
  decide

/-- C3 (amended): outside the deadzone the mapper's output lies in the
closed interval `[MIN_PULSE, MAX_PULSE]` (the endpoints are attained), and
it varies monotonically with the input on each side of the deadzone. -/
theorem mapper_range_and_monotone :
    (∀ v : Int, 40 ≤ v.natAbs →
      MIN_PULSE ≤ mapJoystickToPulseBidirectional v ∧
        mapJoystickToPulseBidirectional v ≤ MAX_PULSE) ∧
    (∀ v1 v2 : Int, 40 ≤ v1 → v1 ≤ v2 →
      mapJoystickToPulseBidirectional v1 ≤ mapJoystickToPulseBidirectional v2) ∧
    (∀ v1 v2 : Int, v1 ≤ v2 → v2 ≤ -40 →
      mapJoystickToPulseBidirectional v1 ≤ mapJoystickToPulseBidirectional v2) :=
  ⟨fun v _ => map_mem_range v,
   fun _ _ h1 h => map_mono_pos h1 h,
   fun _ _ h h2 => map_mono_neg h h2⟩

/-- Witness for the amended C3 at concrete inputs 512 and 40 ≤ 100. -/
theorem mapper_range_and_monotone_witness :
    (MIN_PULSE ≤ mapJoystickToPulseBidirectional 512 ∧
      mapJoystickToPulseBidirectional 512 ≤ MAX_PULSE) ∧
    mapJoystickToPulseBidirectional 40 ≤ mapJoystickToPulseBidirectional 100 ∧
    mapJoystickToPulseBidirectional (-100) ≤ mapJoystickToPulseBidirectional (-40) :=
  ⟨mapper_range_and_monotone.1 512 (by decide),
   mapper_range_and_monotone.2.1 40 100 (by decide) (by decide),
   mapper_range_and_monotone.2.2 (-100) (-40) (by decide) (by decide)⟩

/-- C4: for same-signed axis values `v1 < v2` both at or above the deadzone
magnitude, the mapper is monotone and both outputs lie in `[1020, 2000]`. -/
theorem mapper_monotone_same_sign (v1 v2 : Int)
    (h1 : 40 ≤ v1.natAbs) (h2 : 40 ≤ v2.natAbs)
    (hsign : (0 < v1 ∧ 0 < v2) ∨ (v1 < 0 ∧ v2 < 0)) (hlt : v1 < v2) :
    mapJoystickToPulseBidirectional v1 ≤ mapJoystickToPulseBidirectional v2 ∧
    (MIN_PULSE ≤ mapJoystickToPulseBidirectional v1 ∧
      mapJoystickToPulseBidirectional v1 ≤ MAX_PULSE) ∧
    (MIN_PULSE ≤ mapJoystickToPulseBidirectional v2 ∧
      mapJoystickToPulseBidirectional v2 ≤ MAX_PULSE) := by
  refine ⟨?_, map_mem_range v1, map_mem_range v2⟩
  rcases hsign with ⟨hp1, _⟩ | ⟨_, hn2⟩
  · exact map_mono_pos (by omega) (by omega)
  · exact map_mono_neg (by omega) (by omega)

/-- Witness for C4 at the concrete pair (64, 200). -/
theorem mapper_monotone_same_sign_witness :
    mapJoystickToPulseBidirectional 64 ≤ mapJoystickToPulseBidirectional 200 ∧
    (MIN_PULSE ≤ mapJoystickToPulseBidirectional 64 ∧
      mapJoystickToPulseBidirectional 64 ≤ MAX_PULSE) ∧
    (MIN_PULSE ≤ mapJoystickToPulseBidirectional 200 ∧
      mapJoystickToPulseBidirectional 200 ≤ MAX_PULSE) :=
  mapper_monotone_same_sign 64 200 (by decide) (by decide)
    (Or.inl (by constructor <;> decide)) (by decide)

/-- C5: the out-of-domain reading -600 is sign-inverted by the dispatch
loop to 600; the raw interpolation gives 2084, above `MAX_PULSE`, and the
clamp brings the final pulse to exactly 2000. -/
theorem out_of_domain_reading_clamped :
    pulseFromAxisReading (-600) = mapJoystickToPulseBidirectional 600 ∧
    arduinoMap 600 (-512) 512 MIN_PULSE MAX_PULSE = 2084 ∧
    MAX_PULSE < arduinoMap 600 (-512) 512 MIN_PULSE MAX_PULSE ∧
    pulseFromAxisReading (-600) = 2000 ∧ MAX_PULSE = 2000 := by
  refine ⟨rfl, by decide, by decide, by decide, by decide⟩

/-- Well-formed event sequences preserve duplicate-freeness. -/
theorem goodSeq_preserves_nodup :
    ∀ (evs : List RegEvent) (s : Registry), NoDupOccupants s →
      goodSeq s evs = true → NoDupOccupants (applyEvents evs s)
  | [], s, h, _ => h
  | RegEvent.connect d :: rest, s, h, hg => by
      rw [goodSeq, Bool.and_eq_true, decide_eq_true_eq] at hg
      exact goodSeq_preserves_nodup rest _
        (nodup_occupants_connect h hg.1) hg.2
  | RegEvent.disconnect d :: rest, s, h, hg => by
      rw [goodSeq] at hg
      exact goodSeq_preserves_nodup rest _
        (nodup_occupants_disconnect h) hg

/-- C6: whenever a connected controller's button mask has both the raise
button (`BUTTON_Y`) and the lower button (`BUTTON_A`) asserted, the servo
ends the update at `SERVO_DOWN`, because the lower-button write is
evaluated after the raise-button write. -/
theorem both_buttons_servo_down (buttons : Nat) (servo : Int)
    (_hy : buttons &&& BUTTON_Y ≠ 0) (ha : buttons &&& BUTTON_A ≠ 0) :
    servoAfterUpdate true buttons servo = SERVO_DOWN := by
  unfold servoAfterUpdate
  simp [ha]

/-- Witness for C6 at the mask 9 = `BUTTON_A ||| BUTTON_Y`, starting UP. -/
theorem both_buttons_servo_down_witness :
    (9 : Nat) &&& BUTTON_Y ≠ 0 ∧ (9 : Nat) &&& BUTTON_A ≠ 0 ∧
      servoAfterUpdate true 9 SERVO_UP = SERVO_DOWN :=
  ⟨by decide, by decide, both_buttons_servo_down 9 SERVO_UP (by decide) (by decide)⟩

/-- C7: connecting `K + 1` distinct devices into `K` empty slots fills the
`K` slots with the first `K` devices, leaves exactly `K` occupied slots,
leaves the last device unregistered, and its connect call returns with the
registry unchanged (silently, no error). The source instantiates `K` as
`BP32_MAX_GAMEPADS`. -/
theorem registry_overflow_drops_last (K : Nat) (ds : List Nat) (d : Nat)
    (hlen : ds.length = K) (hnodup : (ds ++ [d]).Nodup) :
    connectAll (ds ++ [d]) (List.replicate K none) = ds.map some ∧
    countOccupied (ds.map some) = K ∧
    some d ∉ ds.map some ∧
    onConnectedController d (ds.map some) = ds.map some := by
  have hd : d ∉ ds := by
    rcases List.nodup_append.mp hnodup with ⟨_, _, hdisj⟩
    intro hmem
    exact hdisj hmem (List.mem_singleton.mpr rfl)
  have hfill : connectAll ds (List.replicate K none) = ds.map some := by
    rw [connectAll_replicate ds K (le_of_eq hlen), hlen]
    simp
  refine ⟨?_, ?_, ?_, onConnectedController_map_some d ds⟩
  · rw [connectAll, List.foldl_append]
    show onConnectedController d (connectAll ds (List.replicate K none)) =
      ds.map some
    rw [hfill]
    exact onConnectedController_map_some d ds
  · rw [countOccupied, occupants]
    simp [hlen]
  · intro hmem
    rcases List.mem_map.mp hmem with ⟨x, hx, hxd⟩
    exact hd (by rwa [show x = d from by injection hxd] at hx)

/-- Witness for C7 at `K = 4` (the `BP32_MAX_GAMEPADS` registry) with the
five distinct devices 0..4. -/
theorem registry_overflow_drops_last_witness :
    connectAll [0, 1, 2, 3, 4] initialControllers =
      [some 0, some 1, some 2, some 3] ∧
    countOccupied [some 0, some 1, some 2, some 3] = 4 ∧
    some 4 ∉ ([some 0, some 1, some 2, some 3] : Registry) ∧
    onConnectedController 4 [some 0, some 1, some 2, some 3] =
      [some 0, some 1, some 2, some 3] :=
  registry_overflow_drops_last 4 [0, 1, 2, 3] 4 (by decide) (by decide)

/-- C8 fails as stated, on two inputs. On a full registry (a reachable
state) with device 7 absent, connect(7), disconnect(7), connect(8) leave
the registry unchanged and device 8 in no slot at all. And when device 7
is already registered at slot 0, connect(7) assigns it slot 1, yet device
8 ends at slot 0, not at slot 1. -/
theorem reconnect_same_slot_fails :
    (onConnectedController 8 (onDisconnectedController 7 (onConnectedController 7
        [some 1, some 2, some 3, some 4])) = [some 1, some 2, some 3, some 4] ∧
      some 8 ∉ ([some 1, some 2, some 3, some 4] : Registry)) ∧
    ((onConnectedController 7 [some 7, none, none, none]).get? 1 =
        some (some 7) ∧
      ([some 7, none, none, none] : Registry).get? 1 = some none ∧
      (onConnectedController 8 (onDisconnectedController 7 (onConnectedController 7
        [some 7, none, none, none]))).get? 1 ≠ some (some 8)) := by
  decide

/-- C8 (amended): if device `a` is not currently registered and the
registry has a free slot (first empty slot `i`), then connect(a) assigns
`a` to slot `i`, disconnect(a) restores the registry exactly, and a
subsequent connect(b) assigns `b` to the same slot `i`. -/
theorem reconnect_reuses_slot (s : Registry) (a b : Nat) (i : Nat)
    (ha : a ∉ occupants s) (hi : firstEmptyIdx s = some i) :
    (onConnectedController a s).get? i = some (some a) ∧
    onDisconnectedController a (onConnectedController a s) = s ∧
    (onConnectedController b (onDisconnectedController a
      (onConnectedController a s))).get? i = some (some b) := by
  refine ⟨connect_at_firstEmpty hi, disconnect_connect_roundtrip ha, ?_⟩
  rw [disconnect_connect_roundtrip ha]
  exact connect_at_firstEmpty hi

/-- Witness for the amended C8: device 1 takes slot 1 of
`[some 7, none, none, none]`, and after its disconnect device 2 takes the
same slot 1. -/
theorem reconnect_reuses_slot_witness :
    (onConnectedController 1 [some 7, none, none, none]).get? 1 =
      some (some 1) ∧
    onDisconnectedController 1 (onConnectedController 1
      [some 7, none, none, none]) = [some 7, none, none, none] ∧
    (onConnectedController 2 (onDisconnectedController 1
      (onConnectedController 1 [some 7, none, none, none]))).get? 1 =
      some (some 2) :=
  reconnect_reuses_slot [some 7, none, none, none] 1 2 1 (by decide) (by decide)

/-- C9 fails as stated: the connect handler does not check whether the
device is already registered, so the event sequence connect(5), connect(5)
from the empty registry puts device 5 into two distinct live slots. -/
theorem duplicate_connect_breaks_invariant :
    applyEvents [RegEvent.connect 5, RegEvent.connect 5] initialControllers =
      [some 5, some 5, none, none] ∧
    ¬ NoDupOccupants (applyEvents [RegEvent.connect 5, RegEvent.connect 5]
        initialControllers) := by
  constructor
  · decide
  · intro h
    rw [NoDupOccupants] at h
    revert h
    decide

/-- C9 (amended): for every event sequence in which each connect event
carries a device not registered at the moment it is applied, the registry
reached from the empty initial state never holds the same device in two
distinct live slots. -/
theorem good_sequences_keep_slots_unique (evs : List RegEvent)
    (h : goodSeq initialControllers evs = true) :
    NoDupOccupants (applyEvents evs initialControllers) :=
  goodSeq_preserves_nodup evs initialControllers
    (by rw [NoDupOccupants]; decide) h

/-- Witness for the amended C9 on a concrete well-formed burst. -/
theorem good_sequences_keep_slots_unique_witness :
    goodSeq initialControllers
      [RegEvent.connect 1, RegEvent.connect 2, RegEvent.disconnect 1,
        RegEvent.connect 3] = true ∧
    NoDupOccupants (applyEvents
      [RegEvent.connect 1, RegEvent.connect 2, RegEvent.disconnect 1,
        RegEvent.connect 3] initialControllers) :=
  ⟨by decide,
   good_sequences_keep_slots_unique
     [RegEvent.connect 1, RegEvent.connect 2, RegEvent.disconnect 1,
       RegEvent.connect 3] (by decide)⟩

/-- C10: the mapper jumps at the deadzone boundary: 39 maps to
`MID_PULSE = 1492` while 40 maps to 1548 (a gap of 56), because the raw
interpolation evaluates to 1510 at axis value 0, not to `MID_PULSE`. -/
theorem mapper_discontinuous_at_deadzone_edge :
    mapJoystickToPulseBidirectional 39 = MID_PULSE ∧
    mapJoystickToPulseBidirectional 40 = 1548 ∧
    mapJoystickToPulseBidirectional 40 - mapJoystickToPulseBidirectional 39 = 56 ∧
    arduinoMap 0 (-512) 512 MIN_PULSE MAX_PULSE = 1510 ∧
    MID_PULSE = 1492 ∧ (1510 : Int) ≠ MID_PULSE := by
  decide

end Drone
